import Mathlib

/-!
Shallow embedding of `src/backend/main.py` (Engineering Impact Dashboard
backend) and proofs about the claims of its specification.

Modelling conventions:
* Python `datetime` instants are integers (seconds); `timedelta(days=d)` is
  `d * 86400` seconds.
* Python floats (hour counts, the 0.10 and 0.40 thresholds) are modelled as
  exact rationals / exact integer arithmetic: `share >= 0.40` over
  naturals `work`, `total` becomes `2 * total ≤ 5 * work`, and
  `int(n * 0.10)` becomes `n / 10` (floor division).
* Python dicts keyed by strings are association lists with distinct keys not
  enforced; `dict.get(k, 0)` is `lookupD`, `d[k] = v` is `setKey`.
* A fallible Python function is `Except Unit _`: `.error ()` marks an
  exception escaping to the caller.
-/

-- ===================================================================
-- Raw PR records and the PR-list fetch (main.py lines 59-82)
-- ===================================================================

/-- A raw PR record as the window filter sees it.  `created_at = none`
models a missing/falsy `created_at` key or a string that
`datetime.fromisoformat` fails to parse; `some t` models a timestamp that
parses to the instant `t` (seconds). -/
structure RawPR where
  number : Nat
  created_at : Option Int
  deriving DecidableEq, Repr

/-- The JSON body of a PR-list response: either a list of PR records or a
non-list payload (typically an error object). -/
inductive PRListBody where
  | listBody (prs : List RawPR)
  | nonListBody
  deriving DecidableEq, Repr

/-- Outcome of `session.get` for the PR-list URL in `fetch_github_prs`:
`raiseTransport` models `session.get` itself raising (connect failure,
timeout, ...); `got parsed` models a received response whose
`response.json()` gives `parsed` (`none` when parsing raises). -/
inductive PRListOutcome where
  | raiseTransport
  | got (parsed : Option PRListBody)
  deriving DecidableEq, Repr

/-- Embedding of `fetch_github_prs` (main.py lines 59-82).  The `await
session.get(...)` on line 69 is outside any `try`, so an exception raised
by the transport propagates to the caller (`.error ()`).  A parse failure
of the body returns `[]` (lines 71-75), a non-list body returns `[]`
(lines 77-80), and a list body is returned as is (line 82). -/
def fetch_github_prs : PRListOutcome → Except Unit (List RawPR)
  | .raiseTransport => .error ()
  | .got none => .ok []
  | .got (some .nonListBody) => .ok []
  | .got (some (.listBody prs)) => .ok prs

-- ===================================================================
-- Window filter (main.py lines 148-164)
-- ===================================================================

/-- Loop body of `filter_prs_by_date`: skip records whose `created_at` is
missing or unparseable (`continue`, lines 152-158), keep records at or
after the cutoff (lines 159-160), and stop at the first parseable record
older than the cutoff (`break`, lines 161-163). -/
def filter_prs_loop (cutoff : Int) : List RawPR → List RawPR
  | [] => []
  | pr :: rest =>
    match pr.created_at with
    | none => filter_prs_loop cutoff rest
    | some t => if cutoff ≤ t then pr :: filter_prs_loop cutoff rest else []

/-- Embedding of `filter_prs_by_date` (main.py lines 148-164):
`cutoff_date = datetime.now(timezone.utc) - timedelta(days=days)`. -/
def filter_prs_by_date (prs : List RawPR) (now : Int) (days : Int) : List RawPR :=
  filter_prs_loop (now - days * 86400) prs

-- ===================================================================
-- Reviews and reviewer metrics (main.py lines 135-145)
-- ===================================================================

/-- One review entry.  `user = none` models `r.get("user")` being falsy
(key missing, JSON null, or an empty object, all of which fail the
`if r.get("user")` guard); `user = some login` models a truthy user
object whose `"login"` value is `login` (`none` when the login key is
absent or null).  `state = none` models a missing `"state"` key. -/
structure Review where
  user : Option (Option String)
  state : Option String
  deriving DecidableEq, Repr

/-- Fields of the PR dict read by `calculate_reviewer_metrics`. -/
structure PRReviewFields where
  requested_reviewers : List String
  deriving DecidableEq, Repr

/-- Result record of `calculate_reviewer_metrics`. -/
structure ReviewerMetrics where
  reviewers_requested : Nat
  reviewers_commented : Nat
  approvals : Nat
  deriving DecidableEq, Repr

/-- Embedding of `calculate_reviewer_metrics` (main.py lines 135-145).
`reviewers_commented` is the cardinality of the set comprehension
`{r.get("user", {}).get("login") for r in reviews if r.get("user")}`
(note: the login value itself may be null and is then one element of the
set); `approvals` is `sum(1 for r in reviews if r.get("state") ==
"APPROVED")`, modelled as the corresponding left fold. -/
def calculate_reviewer_metrics (pr : PRReviewFields) (reviews : List Review) :
    ReviewerMetrics :=
  { reviewers_requested := pr.requested_reviewers.length
    reviewers_commented := ((reviews.filterMap Review.user).dedup).length
    approvals :=
      reviews.foldl (fun acc r => if r.state == some "APPROVED" then acc + 1 else acc) 0 }

-- ===================================================================
-- Median helper (main.py lines 49-53) and statistics.median
-- ===================================================================

/-- Ascending sort used by `statistics.median` (Python sorts ascending). -/
def sortRat (l : List ℚ) : List ℚ :=
  List.insertionSort (· ≤ ·) l

/-- The Python standard library `statistics.median`: sort ascending; an odd
count yields the middle element, an even count the mean of the two middle
elements.  (Only ever applied to non-empty lists here, as in the source.) -/
def statistics_median (l : List ℚ) : ℚ :=
  let s := sortRat l
  let n := s.length
  if n % 2 = 1 then s.getD (n / 2) 0
  else (s.getD (n / 2 - 1) 0 + s.getD (n / 2) 0) / 2

/-- Embedding of `median_or_none` (main.py lines 49-53): drop `None`
samples, return `None` when nothing remains, otherwise the median. -/
def median_or_none (values : List (Option ℚ)) : Option ℚ :=
  if (values.filterMap id).isEmpty then none
  else some (statistics_median (values.filterMap id))

-- ===================================================================
-- Burnout detection (main.py lines 232-248)
-- ===================================================================

/-- Python `sorted(items, key=lambda x: x[1], reverse=True)`: a stable
descending sort by the numeric component. -/
def sortDescByWork (l : List (String × Nat)) : List (String × Nat) :=
  List.insertionSort (fun a b => b.2 ≤ a.2) l

/-- Sum of all authored-LOC values (`sum(work_by_contributor.values())`). -/
def totalWork (l : List (String × Nat)) : Nat :=
  (l.map Prod.snd).sum

/-- Embedding of `detect_burnout` (main.py lines 232-248).  The dict is an
association list in insertion order; `int(len * 0.10)` is floor division
by 10; the float test `work / total_work >= 0.40` is the exact test
`2 * total_work ≤ 5 * work`. -/
def detect_burnout (work_by_contributor : List (String × Nat)) : List String :=
  if work_by_contributor.isEmpty then []
  else
    let sorted_contributors := sortDescByWork work_by_contributor
    let total_work := totalWork work_by_contributor
    if total_work = 0 then []
    else
      let top_10_percent_count := max 1 (work_by_contributor.length / 10)
      let top_contributors := sorted_contributors.take top_10_percent_count
      (top_contributors.filter (fun p => 2 * total_work ≤ 5 * p.2)).map Prod.fst

-- ===================================================================
-- Enriched PRs and bottleneck / high-impact classification
-- (main.py lines 251-289)
-- ===================================================================

/-- The enriched PR fields read by `detect_bottlenecks`,
`identify_high_impact_pr` and the aggregation pass.  Size and count
fields are naturals (the enricher always sets them, and the dict default
is 0); the two time fields are absent (`none`) exactly when the source
stores `None`. -/
structure EnrichedPR where
  author : String
  additions : Nat
  total_changes : Nat
  changed_files : Nat
  reviewers_commented : Nat
  approvals : Nat
  review_time_hours : Option ℚ
  cycle_time_hours : Option ℚ
  reviewer_logins : List String
  deriving DecidableEq, Repr

/-- Embedding of `detect_bottlenecks` (main.py lines 251-271), preserving
the append order of the source. -/
def detect_bottlenecks (pr : EnrichedPR) : List String :=
  (if 500 < pr.total_changes then ["Very large PR (>500 changes)"] else []) ++
  (if 20 < pr.changed_files then ["Touches many files"] else []) ++
  (match pr.review_time_hours with
   | none => ["No review started"]
   | some h => if 24 < h then ["First review took >24h"] else []) ++
  (match pr.cycle_time_hours with
   | none => ["PR still open / not merged"]
   | some h => if 72 < h then ["PR took >72h to merge"] else []) ++
  (if pr.reviewers_commented = 0 then ["No reviewers involved"] else []) ++
  (if pr.approvals = 0 then ["No approvals"] else [])

-- ===================================================================
-- PR detail fetch and size extraction (main.py lines 96-104, 122-132)
-- ===================================================================

/-- The size fields of a PR-detail response body; `none` models a missing
key (in particular, all fields of the empty dict `{}`). -/
structure PRDetails where
  additions : Option Nat
  deletions : Option Nat
  changed_files : Option Nat
  deriving DecidableEq, Repr

/-- The empty dict `{}` returned by `fetch_pr_details` on failure. -/
def emptyDetails : PRDetails := ⟨none, none, none⟩

/-- Embedding of `fetch_pr_details` (main.py lines 96-104): a non-200
status yields `{}` (lines 99-100); an unparseable body (`body = none`)
yields `{}` (lines 101-104); otherwise the parsed body. -/
def fetch_pr_details (status : Nat) (body : Option PRDetails) : PRDetails :=
  if status ≠ 200 then emptyDetails
  else
    match body with
    | none => emptyDetails
    | some d => d

/-- Result record of `extract_pr_size`. -/
structure PRSize where
  additions : Nat
  deletions : Nat
  changed_files : Nat
  total_changes : Nat
  deriving DecidableEq, Repr

/-- Embedding of `extract_pr_size` (main.py lines 122-132): each field
defaults to 0 (`pr_details.get(key, 0)`), and
`total_changes = additions + deletions`. -/
def extract_pr_size (pr_details : PRDetails) : PRSize :=
  let additions := pr_details.additions.getD 0
  let deletions := pr_details.deletions.getD 0
  let changed_files := pr_details.changed_files.getD 0
  ⟨additions, deletions, changed_files, additions + deletions⟩

-- ===================================================================
-- Association-list helpers for Python dicts
-- ===================================================================

/-- Lookup in an association list (`k in d` / `d[k]`). -/
def alistLookup {κ ν : Type} [DecidableEq κ] : List (κ × ν) → κ → Option ν
  | [], _ => none
  | (k2, v) :: rest, k => if k2 = k then some v else alistLookup rest k

/-- Update/insert in an association list (`d[k] = v`). -/
def alistSet {κ ν : Type} [DecidableEq κ] : List (κ × ν) → κ → ν → List (κ × ν)
  | [], k, v => [(k, v)]
  | (k2, v2) :: rest, k, v =>
    if k2 = k then (k, v) :: rest else (k2, v2) :: alistSet rest k v

/-- Python `d.get(k, 0)` over a string-to-int dict. -/
def lookupD (m : List (String × Nat)) (k : String) : Nat :=
  (alistLookup m k).getD 0

/-- Python `d[k] = d.get(k, 0) + v`. -/
def addTo (m : List (String × Nat)) (k : String) (v : Nat) : List (String × Nat) :=
  alistSet m k (lookupD m k + v)

-- ===================================================================
-- LOC aggregation steps from compute_aggregations
-- (main.py lines 345-347 and 361-372)
-- ===================================================================

/-- Authored-LOC update for one PR (main.py lines 345-347):
`authored_loc[author] = authored_loc.get(author, 0) + pr.get("additions", 0)`. -/
def authored_loc_step (m : List (String × Nat)) (pr : EnrichedPR) :
    List (String × Nat) :=
  addTo m pr.author pr.additions

/-- Reviewed-LOC update for one PR (main.py lines 361-372, the
`reviewed_loc` part): every truthy reviewer login gains
`pr.get("total_changes", 0)`. -/
def reviewed_loc_step (m : List (String × Nat)) (pr : EnrichedPR) :
    List (String × Nat) :=
  pr.reviewer_logins.foldl
    (fun acc reviewer =>
      if reviewer = "" then acc else addTo acc reviewer pr.total_changes)
    m

-- ===================================================================
-- Result cache (main.py lines 29, 38-43, 474-521)
-- ===================================================================

/-- The TTL constant `CACHE_TTL_SECONDS = 600`. -/
def CACHE_TTL_SECONDS : Int := 600

/-- Python `sorted(repos)` (ascending lexicographic). -/
def sortRepos (repos : List String) : List String :=
  List.insertionSort (· ≤ ·) repos

/-- Embedding of `make_cache_key` (main.py lines 41-43):
`(tuple(sorted(repos)), days)` — sorted, but not deduplicated. -/
def make_cache_key (repos : List String) (days : Int) : List String × Int :=
  (sortRepos repos, days)

/-- One stored cache entry: `{"time": float, "data": dict}`.  The data
value is abstracted to a natural number. -/
structure CacheEntry where
  time : Int
  data : Nat
  deriving DecidableEq, Repr

/-- The module-level `CACHE` dict. -/
abbrev Cache := List ((List String × Int) × CacheEntry)

/-- Observable outcome of one `get_insights` call: the returned data, the
cache after the call, and whether the fetch pipeline was invoked. -/
structure InsightsOutcome where
  data : Nat
  cache : Cache
  pipeline_ran : Bool
  deriving DecidableEq, Repr

/-- Cache read/write logic of `get_insights` (main.py lines 476-482 and
519-521).  The fetch/filter/enrich/aggregate pipeline is abstracted to
the value `pipeline` it would produce; `pipeline_ran` records whether the
code fell through to it.  A hit younger than the TTL returns the stored
data unchanged; a miss or stale hit recomputes and overwrites the entry
with timestamp `now` (taken before the computation, line 478). -/
def get_insights_cache (cache : Cache) (now : Int) (repos : List String)
    (days : Int) (pipeline : Nat) : InsightsOutcome :=
  let key := make_cache_key repos days
  match alistLookup cache key with
  | some entry =>
    if now - entry.time < CACHE_TTL_SECONDS then ⟨entry.data, cache, false⟩
    else ⟨pipeline, alistSet cache key ⟨now, pipeline⟩, true⟩
  | none => ⟨pipeline, alistSet cache key ⟨now, pipeline⟩, true⟩

-- ===================================================================
-- Repository-identifier handling in get_insights (main.py lines 489-493)
-- ===================================================================

/-- Helper for `pySplitSlash`: walk the character list, cutting at every
slash, accumulating the current segment in reverse. -/
def splitSlashAux : List Char → List Char → List (List Char)
  | [], acc => [acc.reverse]
  | c :: rest, acc =>
    if c = '/' then acc.reverse :: splitSlashAux rest []
    else splitSlashAux rest (c :: acc)

/-- Python `repo.split("/")`: split at every slash, keeping empty
segments; a string without a slash yields the one-element list of
itself, so Python `"/" in repo` is exactly `2 ≤ (pySplitSlash
repo).length`. -/
def pySplitSlash (s : String) : List String :=
  (splitSlashAux s.data []).map (fun l => ⟨l⟩)

/-- The per-repository guard of `get_insights` (main.py lines 489-493):
an entry without `"/"` is skipped (`continue`); otherwise
`owner, repo_name = repo.split("/")` unpacks — raising `ValueError`
(modelled as `.error ()`) unless the split has exactly two parts.  The
returned pairs are exactly the repositories the pipeline then fetches. -/
def valid_repo_pairs : List String → Except Unit (List (String × String))
  | [] => .ok []
  | repo :: rest =>
    let parts := pySplitSlash repo
    if parts.length = 1 then valid_repo_pairs rest
    else if parts.length = 2 then
      match valid_repo_pairs rest with
      | .error e => .error e
      | .ok tail => .ok ((parts.getD 0 "", parts.getD 1 "") :: tail)
    else .error ()

-- ===================================================================
-- Helper lemmas
-- ===================================================================

/-- The window-filter loop is the prefix of the parse-surviving records
that lie at or after the cutoff. -/
lemma filter_prs_loop_eq_takeWhile (cutoff : Int) (prs : List RawPR) :
    filter_prs_loop cutoff prs =
      ((prs.filter (fun pr => pr.created_at.isSome)).takeWhile
        (fun pr => decide (cutoff ≤ pr.created_at.getD 0))) := by
  induction prs with
  | nil => rfl
  | cons pr rest ih =>
    cases h : pr.created_at with
    | none => simp [filter_prs_loop, List.filter_cons, h, ih]
    | some t =>
      by_cases hc : cutoff ≤ t
      · simp [filter_prs_loop, List.filter_cons, List.takeWhile_cons, h, hc, ih]
      · simp [filter_prs_loop, List.filter_cons, List.takeWhile_cons, h, hc]

/-- On a feed sorted newest-first, taking the in-window prefix is the same
as keeping every in-window record. -/
lemma takeWhile_eq_filter_of_sorted (cutoff : Int) (l : List RawPR)
    (h : l.Pairwise (fun a b => b.created_at.getD 0 ≤ a.created_at.getD 0)) :
    l.takeWhile (fun pr => decide (cutoff ≤ pr.created_at.getD 0)) =
      l.filter (fun pr => decide (cutoff ≤ pr.created_at.getD 0)) := by
  induction l with
  | nil => rfl
  | cons a l ih =>
    rcases List.pairwise_cons.mp h with ⟨ha, hl⟩
    by_cases hc : cutoff ≤ a.created_at.getD 0
    · rw [List.takeWhile_cons, List.filter_cons, if_pos (decide_eq_true hc),
        if_pos (decide_eq_true hc), ih hl]
    · have hall : ∀ b ∈ l, ¬ (cutoff ≤ b.created_at.getD 0) := fun b hb hcb =>
        hc (le_trans hcb (ha b hb))
      have hna : ¬ (decide (cutoff ≤ a.created_at.getD 0) = true) := fun hd =>
        hc (of_decide_eq_true hd)
      rw [List.takeWhile_cons, List.filter_cons, if_neg hna, if_neg hna]
      symm
      rw [List.filter_eq_nil_iff]
      intro b hb
      exact fun hd => hall b hb (of_decide_eq_true hd)

-- ===================================================================
-- C1: PR-list fetch error handling (code_bug evidence)
-- ===================================================================

/-- C1: the spec says the PR-list fetcher never raises to its caller, and
the docstring of `fetch_github_prs` says it always returns a list.  For a
completed response this holds: an unparseable body or a non-list body
yields `[]` and a list body is returned.  But the `await session.get`
on line 69 sits outside every `try` block, so a transport-level failure
(connect error, timeout) raises out of `fetch_github_prs`, contradicting
both the claim and the docstring: the code, not the spec, is at fault. -/
theorem fetch_github_prs_outcomes :
    fetch_github_prs .raiseTransport = .error () ∧
    fetch_github_prs (.got none) = .ok [] ∧
    fetch_github_prs (.got (some .nonListBody)) = .ok [] ∧
    (∀ prs : List RawPR, fetch_github_prs (.got (some (.listBody prs))) = .ok prs) :=
  ⟨rfl, rfl, rfl, fun _ => rfl⟩

-- ===================================================================
-- C3: window filter
-- ===================================================================

/-- C3: the window filter returns the maximal prefix of PRs created at or
after `now - days`, stopping at the first parseable record older than the
cutoff; a record with a missing or unparseable creation timestamp is
skipped, neither kept nor treated as a stop condition.  On a newest-first
feed (the hypothesis: the parse-surviving records are sorted descending
by creation instant) this prefix is exactly the set of in-window
records. -/
theorem filter_prs_by_date_spec (prs : List RawPR) (now days : Int)
    (hsorted : (prs.filter (fun pr => pr.created_at.isSome)).Pairwise
      (fun a b => b.created_at.getD 0 ≤ a.created_at.getD 0)) :
    filter_prs_by_date prs now days =
      ((prs.filter (fun pr => pr.created_at.isSome)).takeWhile
        (fun pr => decide (now - days * 86400 ≤ pr.created_at.getD 0))) ∧
    filter_prs_by_date prs now days =
      ((prs.filter (fun pr => pr.created_at.isSome)).filter
        (fun pr => decide (now - days * 86400 ≤ pr.created_at.getD 0))) := by
  constructor
  · exact filter_prs_loop_eq_takeWhile _ prs
  · rw [filter_prs_by_date, filter_prs_loop_eq_takeWhile]
    exact takeWhile_eq_filter_of_sorted _ _ hsorted

/-- C3 witness: a concrete newest-first feed with an unparseable record in
second position (skipped) and an out-of-window record in last position
(stops the scan). -/
theorem filter_prs_by_date_spec_witness :
    filter_prs_by_date
        [⟨1, some 1000⟩, ⟨2, none⟩, ⟨3, some 500⟩, ⟨4, some 10⟩] 86500 1 =
      [⟨1, some 1000⟩, ⟨3, some 500⟩] ∧
    filter_prs_by_date
        [⟨1, some 1000⟩, ⟨2, none⟩, ⟨3, some 500⟩, ⟨4, some 10⟩] 86500 1 =
      (([⟨1, some 1000⟩, ⟨2, none⟩, ⟨3, some 500⟩,
          (⟨4, some 10⟩ : RawPR)].filter (fun pr => pr.created_at.isSome)).filter
        (fun pr => decide (86500 - 1 * 86400 ≤ pr.created_at.getD 0))) :=
  ⟨by decide,
   (filter_prs_by_date_spec
      [⟨1, some 1000⟩, ⟨2, none⟩, ⟨3, some 500⟩, ⟨4, some 10⟩] 86500 1
      (by decide)).2⟩

-- ===================================================================
-- C7: median over optional samples
-- ===================================================================

/-- C7: `median_or_none` is `none` exactly when every sample is `none`
(in particular on the empty list), and it depends only on the non-null
samples. -/
theorem median_or_none_spec (values : List (Option ℚ)) :
    (median_or_none values = none ↔ ∀ v ∈ values, v = none) ∧
    median_or_none values = median_or_none ((values.filterMap id).map some) := by
  have hmm : ((values.filterMap id).map some).filterMap id = values.filterMap id := by
    rw [List.filterMap_map]
    exact List.filterMap_some (values.filterMap id)
  have hiff : (values.filterMap id).isEmpty = true ↔ ∀ v ∈ values, v = none := by
    rw [List.isEmpty_iff, List.filterMap_eq_nil_iff]
    exact ⟨fun h v hv => h v hv, fun h v hv => h v hv⟩
  constructor
  · rw [median_or_none]
    by_cases h : (values.filterMap id).isEmpty = true
    · rw [if_pos h]
      exact ⟨fun _ => hiff.mp h, fun _ => rfl⟩
    · rw [if_neg h]
      constructor
      · intro hc
        exact (Option.some_ne_none _ hc).elim
      · intro hall
        exact absurd (hiff.mpr hall) h
  · rw [median_or_none, median_or_none, hmm]

-- ===================================================================
-- C2 / C8: reviewer metrics
-- ===================================================================

/-- Counting distinct values of an optional type splits into the distinct
present values plus one for an occurring absent value. -/
lemma dedup_length_option {α : Type} [DecidableEq α] (l : List (Option α)) :
    l.dedup.length = (l.filterMap id).dedup.length + (if none ∈ l then 1 else 0) := by
  induction l with
  | nil => simp
  | cons a l ih =>
    cases a with
    | none =>
      by_cases h : (none : Option α) ∈ l
      · rw [List.dedup_cons_of_mem h]
        simp [ih, h]
      · rw [List.dedup_cons_of_not_mem h]
        simp [ih, h]
    | some x =>
      have hmem : (some x ∈ l) ↔ x ∈ l.filterMap id := by
        simp [List.mem_filterMap]
      by_cases h : some x ∈ l
      · rw [List.dedup_cons_of_mem h]
        have h2 : x ∈ l.filterMap id := hmem.mp h
        simp [ih, List.dedup_cons_of_mem h2]
      · rw [List.dedup_cons_of_not_mem h]
        have h2 : ¬ x ∈ l.filterMap id := fun hx => h (hmem.mpr hx)
        simp only [ih, List.dedup_cons_of_not_mem h2, List.length_cons,
          List.filterMap_cons_some, List.mem_cons, or_false, id]
        simp [h2]
        omega

/-- A guarded counting fold equals the length of the filtered list. -/
lemma foldl_count_eq {α : Type} (p : α → Bool) (l : List α) (acc : Nat) :
    l.foldl (fun a r => if p r then a + 1 else a) acc = acc + (l.filter p).length := by
  induction l generalizing acc with
  | nil => simp
  | cons x l ih =>
    by_cases h : p x
    · simp only [List.foldl_cons, List.filter_cons, h, if_true, ih, List.length_cons]
      omega
    · simp only [List.foldl_cons, List.filter_cons, h, if_false, ih]
      simp [h]

/-- C2 counterexample: the source compares the review state against the
exact uppercase string `"APPROVED"`, so a review whose state is the
lowercase `"approved"` is not counted, refuting the claim that the
approvals count equals the number of entries whose state equals
`"approved"`. -/
theorem calculate_reviewer_metrics_approvals_counterexample :
    (calculate_reviewer_metrics ⟨[]⟩ [⟨none, some "approved"⟩]).approvals ≠
      ([(⟨none, some "approved"⟩ : Review)].filter
        (fun r => r.state == some "approved")).length := by
  decide

/-- C2 amended: the approvals count equals the number of review entries
whose state equals the exact, case-sensitive string `"APPROVED"`. -/
theorem calculate_reviewer_metrics_approvals (pr : PRReviewFields)
    (reviews : List Review) :
    (calculate_reviewer_metrics pr reviews).approvals =
      (reviews.filter (fun r => r.state == some "APPROVED")).length := by
  show reviews.foldl _ 0 = _
  rw [foldl_count_eq]
  exact Nat.zero_add _

/-- C8 counterexample: a review entry whose user object is truthy but
whose login is null contributes one element (the null login) to the set
the source counts, so the reviewers-commented count exceeds the number of
distinct non-null logins. -/
theorem calculate_reviewer_metrics_commented_counterexample :
    (calculate_reviewer_metrics ⟨[]⟩ [⟨some none, some "COMMENTED"⟩]).reviewers_commented ≠
      ((([(⟨some none, some "COMMENTED"⟩ : Review)].filterMap
          Review.user).filterMap id).dedup).length := by
  decide

/-- C8 amended: the reviewers-commented count equals the number of
distinct non-null reviewer logins across the review entries whose user
object is truthy, plus one if some such entry has a null/missing login
(the null login is counted as one further set element). -/
theorem calculate_reviewer_metrics_commented (pr : PRReviewFields)
    (reviews : List Review) :
    (calculate_reviewer_metrics pr reviews).reviewers_commented =
      (((reviews.filterMap Review.user).filterMap id).dedup).length +
        (if none ∈ reviews.filterMap Review.user then 1 else 0) := by
  show ((reviews.filterMap Review.user).dedup).length = _
  exact dedup_length_option _

-- ===================================================================
-- C9: bottleneck classification
-- ===================================================================

/-- Membership of the very-large reason. -/
lemma mem_bn_very_large (pr : EnrichedPR) :
    ("Very large PR (>500 changes)" ∈ detect_bottlenecks pr) ↔ 500 < pr.total_changes := by
  obtain ⟨auth, adds, tc, cf, rc, ap, rth, cth, logins⟩ := pr
  rcases rth with _ | rh <;> rcases cth with _ | ch <;> simp [detect_bottlenecks]

/-- Membership of the many-files reason. -/
lemma mem_bn_many_files (pr : EnrichedPR) :
    ("Touches many files" ∈ detect_bottlenecks pr) ↔ 20 < pr.changed_files := by
  obtain ⟨auth, adds, tc, cf, rc, ap, rth, cth, logins⟩ := pr
  rcases rth with _ | rh <;> rcases cth with _ | ch <;> simp [detect_bottlenecks]

/-- Membership of the no-review-started reason. -/
lemma mem_bn_no_review (pr : EnrichedPR) :
    ("No review started" ∈ detect_bottlenecks pr) ↔ pr.review_time_hours = none := by
  obtain ⟨auth, adds, tc, cf, rc, ap, rth, cth, logins⟩ := pr
  rcases rth with _ | rh <;> rcases cth with _ | ch <;> simp [detect_bottlenecks]

/-- Membership of the slow-first-review reason. -/
lemma mem_bn_slow_review (pr : EnrichedPR) (h : ℚ)
    (hr : pr.review_time_hours = some h) :
    ("First review took >24h" ∈ detect_bottlenecks pr) ↔ 24 < h := by
  obtain ⟨auth, adds, tc, cf, rc, ap, rth, cth, logins⟩ := pr
  cases hr
  rcases cth with _ | ch <;> simp [detect_bottlenecks]

/-- Membership of the still-open reason. -/
lemma mem_bn_still_open (pr : EnrichedPR) :
    ("PR still open / not merged" ∈ detect_bottlenecks pr) ↔ pr.cycle_time_hours = none := by
  obtain ⟨auth, adds, tc, cf, rc, ap, rth, cth, logins⟩ := pr
  rcases rth with _ | rh <;> rcases cth with _ | ch <;> simp [detect_bottlenecks]

/-- Membership of the slow-merge reason. -/
lemma mem_bn_slow_merge (pr : EnrichedPR) (h : ℚ)
    (hc : pr.cycle_time_hours = some h) :
    ("PR took >72h to merge" ∈ detect_bottlenecks pr) ↔ 72 < h := by
  obtain ⟨auth, adds, tc, cf, rc, ap, rth, cth, logins⟩ := pr
  cases hc
  rcases rth with _ | rh <;> simp [detect_bottlenecks]

/-- Membership of the no-reviewers reason. -/
lemma mem_bn_no_reviewers (pr : EnrichedPR) :
    ("No reviewers involved" ∈ detect_bottlenecks pr) ↔ pr.reviewers_commented = 0 := by
  obtain ⟨auth, adds, tc, cf, rc, ap, rth, cth, logins⟩ := pr
  rcases rth with _ | rh <;> rcases cth with _ | ch <;> simp [detect_bottlenecks]

/-- Membership of the no-approvals reason. -/
lemma mem_bn_no_approvals (pr : EnrichedPR) :
    ("No approvals" ∈ detect_bottlenecks pr) ↔ pr.approvals = 0 := by
  obtain ⟨auth, adds, tc, cf, rc, ap, rth, cth, logins⟩ := pr
  rcases rth with _ | rh <;> rcases cth with _ | ch <;> simp [detect_bottlenecks]

/-- C9: each bottleneck reason is present exactly when its own condition
holds, each independently evaluated: total-changes over 500; changed
files over 20; review time null, else over 24 hours; cycle time null,
else over 72 hours; no commenting reviewers; no approvals.  In
particular the no-review-started and no-approvals reasons each appear
with or without the other, as implied by the field values alone. -/
theorem detect_bottlenecks_spec (pr : EnrichedPR) :
    (("Very large PR (>500 changes)" ∈ detect_bottlenecks pr) ↔ 500 < pr.total_changes) ∧
    (("Touches many files" ∈ detect_bottlenecks pr) ↔ 20 < pr.changed_files) ∧
    (("No review started" ∈ detect_bottlenecks pr) ↔ pr.review_time_hours = none) ∧
    (∀ h : ℚ, pr.review_time_hours = some h →
      (("First review took >24h" ∈ detect_bottlenecks pr) ↔ 24 < h)) ∧
    (("PR still open / not merged" ∈ detect_bottlenecks pr) ↔ pr.cycle_time_hours = none) ∧
    (∀ h : ℚ, pr.cycle_time_hours = some h →
      (("PR took >72h to merge" ∈ detect_bottlenecks pr) ↔ 72 < h)) ∧
    (("No reviewers involved" ∈ detect_bottlenecks pr) ↔ pr.reviewers_commented = 0) ∧
    (("No approvals" ∈ detect_bottlenecks pr) ↔ pr.approvals = 0) :=
  ⟨mem_bn_very_large pr, mem_bn_many_files pr, mem_bn_no_review pr,
   fun h hr => mem_bn_slow_review pr h hr, mem_bn_still_open pr,
   fun h hc => mem_bn_slow_merge pr h hc, mem_bn_no_reviewers pr,
   mem_bn_no_approvals pr⟩

/-- C9 witness: two concrete enriched PRs, one with a slow review and one
with a slow merge, discharging the timestamp hypotheses. -/
theorem detect_bottlenecks_spec_witness :
    (("First review took >24h" ∈
        detect_bottlenecks ⟨"alice", 600, 600, 25, 0, 0, some 30, none, []⟩) ↔
      (24 : ℚ) < 30) ∧
    (("PR took >72h to merge" ∈
        detect_bottlenecks ⟨"bob", 0, 0, 0, 1, 1, some 1, some 100, []⟩) ↔
      (72 : ℚ) < 100) :=
  ⟨(detect_bottlenecks_spec ⟨"alice", 600, 600, 25, 0, 0, some 30, none, []⟩).2.2.2.1 30 rfl,
   (detect_bottlenecks_spec ⟨"bob", 0, 0, 0, 1, 1, some 1, some 100, []⟩).2.2.2.2.2.1 100 rfl⟩

-- ===================================================================
-- C4: burnout detection
-- ===================================================================

/-- C4: a contributor is flagged for burnout exactly when the table has a
nonzero total and they occupy, with their authored-LOC value, a slot in
the top max(1, floor(n/10)) of the descending ranking with a share of at
least 40 percent of the total; and an all-zero total (in particular an
empty table) always yields the empty burnout list. -/
theorem detect_burnout_spec (w : List (String × Nat)) (u : String) :
    (u ∈ detect_burnout w ↔
      (totalWork w ≠ 0 ∧ ∃ loc,
        (u, loc) ∈ (sortDescByWork w).take (max 1 (w.length / 10)) ∧
        2 * totalWork w ≤ 5 * loc)) ∧
    (totalWork w = 0 → detect_burnout w = []) := by
  constructor
  · by_cases he : w.isEmpty = true
    · have hw : w = [] := List.isEmpty_iff.mp he
      subst hw
      simp [detect_burnout, totalWork]
    · by_cases ht : totalWork w = 0
      · simp [detect_burnout, he, ht]
      · rw [detect_burnout, if_neg (by simp [he]), if_neg ht]
        rw [List.mem_map]
        constructor
        · rintro ⟨⟨u2, loc⟩, hmem, heq⟩
          rcases List.mem_filter.mp hmem with ⟨htake, hcond⟩
          cases heq
          exact ⟨ht, loc, htake, of_decide_eq_true hcond⟩
        · rintro ⟨-, loc, htake, hcond⟩
          exact ⟨(u, loc), List.mem_filter.mpr ⟨htake, decide_eq_true hcond⟩, rfl⟩
  · intro ht
    by_cases he : w.isEmpty = true
    · simp [detect_burnout, he]
    · rw [detect_burnout, if_neg (by simp [he]), if_pos ht]

/-- C4 witness: in a two-contributor table the top decile rounds up to one
slot; the 90-percent author is flagged, and an all-zero table yields no
flags. -/
theorem detect_burnout_spec_witness :
    "alice" ∈ detect_burnout [("alice", 90), ("bob", 10)] ∧
    detect_burnout [("zero", 0)] = [] :=
  ⟨(detect_burnout_spec [("alice", 90), ("bob", 10)] "alice").1.mpr
      ⟨by decide, 90, by decide, by decide⟩,
   (detect_burnout_spec [("zero", 0)] "u").2 (by decide)⟩

-- ===================================================================
-- Association-list lemmas
-- ===================================================================

/-- Looking up after a set: the written key yields the written value, any
other key is untouched. -/
lemma alistLookup_alistSet {κ ν : Type} [DecidableEq κ] (m : List (κ × ν))
    (k u : κ) (v : ν) :
    alistLookup (alistSet m k v) u = if k = u then some v else alistLookup m u := by
  induction m with
  | nil =>
    by_cases h : k = u <;> simp [alistSet, alistLookup, h]
  | cons p rest ih =>
    obtain ⟨k2, v2⟩ := p
    by_cases h : k2 = k
    · subst h
      by_cases h2 : k2 = u <;> simp [alistSet, alistLookup, h2]
    · by_cases h2 : k2 = u
      · subst h2
        have hku : ¬ k = k2 := fun he => h he.symm
        simp [alistSet, alistLookup, h, hku, ih]
      · simp [alistSet, alistLookup, h, h2, ih]

/-- Adding zero to a key leaves every defaulted lookup unchanged. -/
lemma lookupD_addTo_zero (m : List (String × Nat)) (k u : String) :
    lookupD (addTo m k 0) u = lookupD m u := by
  rw [lookupD, addTo, alistLookup_alistSet]
  by_cases h : k = u
  · subst h
    simp [lookupD]
  · simp [h, lookupD]

/-- A fold of zero-amount additions leaves every defaulted lookup
unchanged. -/
lemma lookupD_fold_addTo_zero (logins : List String) (m : List (String × Nat))
    (u : String) :
    lookupD (logins.foldl
      (fun acc reviewer => if reviewer = "" then acc else addTo acc reviewer 0) m) u =
      lookupD m u := by
  induction logins generalizing m with
  | nil => rfl
  | cons r rest ih =>
    by_cases h : r = ""
    · simp only [List.foldl_cons, h, if_pos rfl]
      exact ih m
    · simp only [List.foldl_cons, if_neg h]
      rw [ih (addTo m r 0), lookupD_addTo_zero]

-- ===================================================================
-- C10: absent size data defaults to zero everywhere
-- ===================================================================

/-- C10: a failed detail fetch (non-success status or unparseable body)
yields the empty detail dict, whose extracted size is all zeroes and is
indistinguishable from a genuinely zero-size PR; a PR with zero
total-changes can never carry the very-large reason, one with zero
changed-files never the many-files reason, and zero additions /
total-changes contribute nothing to any authored-LOC or reviewed-LOC
aggregate value. -/
theorem fetch_pr_details_failure_spec :
    (∀ (status : Nat) (body : Option PRDetails), status ≠ 200 ∨ body = none →
      fetch_pr_details status body = emptyDetails) ∧
    extract_pr_size emptyDetails = ⟨0, 0, 0, 0⟩ ∧
    extract_pr_size emptyDetails = extract_pr_size ⟨some 0, some 0, some 0⟩ ∧
    (∀ pr : EnrichedPR, pr.total_changes = 0 →
      "Very large PR (>500 changes)" ∉ detect_bottlenecks pr) ∧
    (∀ pr : EnrichedPR, pr.changed_files = 0 →
      "Touches many files" ∉ detect_bottlenecks pr) ∧
    (∀ (pr : EnrichedPR) (m : List (String × Nat)) (u : String), pr.additions = 0 →
      lookupD (authored_loc_step m pr) u = lookupD m u) ∧
    (∀ (pr : EnrichedPR) (m : List (String × Nat)) (u : String), pr.total_changes = 0 →
      lookupD (reviewed_loc_step m pr) u = lookupD m u) := by
  refine ⟨?_, rfl, rfl, ?_, ?_, ?_, ?_⟩
  · rintro status body (h | rfl)
    · simp [fetch_pr_details, h]
    · by_cases hs : status = 200 <;> simp [fetch_pr_details, hs]
  · intro pr h hc
    rw [mem_bn_very_large, h] at hc
    exact absurd hc (by decide)
  · intro pr h hc
    rw [mem_bn_many_files, h] at hc
    exact absurd hc (by decide)
  · intro pr m u h
    rw [authored_loc_step, h]
    exact lookupD_addTo_zero m pr.author u
  · intro pr m u h
    rw [reviewed_loc_step, h]
    exact lookupD_fold_addTo_zero pr.reviewer_logins m u

/-- C10 witness: a 404 detail response and an unparseable 200 response
both extract to the all-zero size, and a zero-size PR neither gains the
size-based bottleneck reasons nor moves any LOC aggregate value. -/
theorem fetch_pr_details_failure_spec_witness :
    fetch_pr_details 404 (some ⟨some 5, some 6, some 7⟩) = emptyDetails ∧
    fetch_pr_details 200 none = emptyDetails ∧
    ("Very large PR (>500 changes)" ∉
      detect_bottlenecks ⟨"a", 0, 0, 0, 0, 0, none, none, ["r"]⟩) ∧
    lookupD (authored_loc_step [("a", 7)]
      ⟨"a", 0, 0, 0, 0, 0, none, none, ["r"]⟩) "a" = lookupD [("a", 7)] "a" ∧
    lookupD (reviewed_loc_step [("r", 3)]
      ⟨"a", 0, 0, 0, 0, 0, none, none, ["r"]⟩) "r" = lookupD [("r", 3)] "r" :=
  ⟨fetch_pr_details_failure_spec.1 404 (some ⟨some 5, some 6, some 7⟩)
      (Or.inl (by decide)),
   fetch_pr_details_failure_spec.1 200 none (Or.inr rfl),
   fetch_pr_details_failure_spec.2.2.2.1 ⟨"a", 0, 0, 0, 0, 0, none, none, ["r"]⟩ rfl,
   fetch_pr_details_failure_spec.2.2.2.2.2.1 ⟨"a", 0, 0, 0, 0, 0, none, none, ["r"]⟩
      [("a", 7)] "a" rfl,
   fetch_pr_details_failure_spec.2.2.2.2.2.2 ⟨"a", 0, 0, 0, 0, 0, none, none, ["r"]⟩
      [("r", 3)] "r" rfl⟩

-- ===================================================================
-- C5: result cache
-- ===================================================================

/-- Permuting the repository list does not change the cache key: sorting
is canonical. -/
lemma make_cache_key_perm (repos1 repos2 : List String) (days : Int)
    (hperm : repos1.Perm repos2) :
    make_cache_key repos1 days = make_cache_key repos2 days := by
  have hs : sortRepos repos1 = sortRepos repos2 :=
    List.eq_of_perm_of_sorted
      (((List.perm_insertionSort _ repos1).trans hperm).trans
        (List.perm_insertionSort _ repos2).symm)
      (List.sorted_insertionSort _ repos1)
      (List.sorted_insertionSort _ repos2)
  rw [make_cache_key, make_cache_key, hs]

/-- C5 counterexample: the cache key is sorted but not deduplicated, so
two requests denoting the same repository set — `["a/b"]` and
`["a/b", "a/b"]` — produce different keys, and the second request,
though within the TTL of the first, re-runs the fetch pipeline. -/
theorem get_insights_cache_dup_counterexample :
    make_cache_key ["a/b", "a/b"] 30 ≠ make_cache_key ["a/b"] 30 ∧
    (["a/b", "a/b"] : List String).dedup = ["a/b"] ∧
    (get_insights_cache (get_insights_cache [] 0 ["a/b"] 30 5).cache 1
        ["a/b", "a/b"] 30 7).pipeline_ran = true ∧
    (1 : Int) - 0 < CACHE_TTL_SECONDS := by
  refine ⟨?_, by decide, ?_, by decide⟩
  · intro h
    have h1 := congrArg (fun k => k.1.length) h
    have e1 : (sortRepos ["a/b", "a/b"]).length = 2 :=
      (List.perm_insertionSort _ _).length_eq
    have e2 : (sortRepos ["a/b"]).length = 1 :=
      (List.perm_insertionSort _ _).length_eq
    simp only [make_cache_key] at h1
    rw [e1, e2] at h1
    exact absurd h1 (by decide)
  · simp [get_insights_cache, make_cache_key, sortRepos, List.insertionSort,
      List.orderedInsert, alistLookup, alistSet, CACHE_TTL_SECONDS]

/-- C5 amended: with the key canonicalized by sorting alone (duplicates
retained), a second request whose repository list is a permutation of
the first and whose window matches, arriving within the 10-minute TTL of
the entry the first request stored, returns the stored result without
re-invoking the fetch pipeline; at or past the TTL the pipeline runs
again and overwrites the entry with the fresh result and timestamp. -/
theorem get_insights_cache_spec (cache : Cache) (t0 t1 : Int)
    (repos1 repos2 : List String) (days : Int) (p1 p2 : Nat)
    (hperm : repos1.Perm repos2)
    (hmiss : alistLookup cache (make_cache_key repos1 days) = none) :
    (get_insights_cache cache t0 repos1 days p1).pipeline_ran = true ∧
    (t1 - t0 < CACHE_TTL_SECONDS →
      (get_insights_cache (get_insights_cache cache t0 repos1 days p1).cache
          t1 repos2 days p2).data = p1 ∧
      (get_insights_cache (get_insights_cache cache t0 repos1 days p1).cache
          t1 repos2 days p2).pipeline_ran = false) ∧
    (CACHE_TTL_SECONDS ≤ t1 - t0 →
      (get_insights_cache (get_insights_cache cache t0 repos1 days p1).cache
          t1 repos2 days p2).pipeline_ran = true ∧
      alistLookup (get_insights_cache (get_insights_cache cache t0 repos1 days p1).cache
          t1 repos2 days p2).cache (make_cache_key repos2 days) =
        some ⟨t1, p2⟩) := by
  have hkey := make_cache_key_perm repos1 repos2 days hperm
  have hset : alistLookup
      (alistSet cache (make_cache_key repos1 days) ⟨t0, p1⟩)
      (make_cache_key repos2 days) = some ⟨t0, p1⟩ := by
    rw [← hkey, alistLookup_alistSet]
    simp
  refine ⟨?_, ?_, ?_⟩
  · simp [get_insights_cache, hmiss]
  · intro hfresh
    constructor <;>
      simp [get_insights_cache, hmiss, hset, hfresh]
  · intro hstale
    have hnf : ¬ (t1 - t0 < CACHE_TTL_SECONDS) := not_lt.mpr hstale
    constructor
    · simp [get_insights_cache, hmiss, hset, hnf]
    · simp [get_insights_cache, hmiss, hset, hnf, ← hkey, alistLookup_alistSet]

/-- C5 witness: starting from the empty cache, a first request stores its
result; a permuted repository list hits the entry 10 seconds later
without running the pipeline, and misses it 700 seconds later. -/
theorem get_insights_cache_spec_witness :
    (get_insights_cache [] 0 ["b/c", "a/b"] 30 5).pipeline_ran = true ∧
    (get_insights_cache (get_insights_cache [] 0 ["b/c", "a/b"] 30 5).cache 10
        ["a/b", "b/c"] 30 7).data = 5 ∧
    (get_insights_cache (get_insights_cache [] 0 ["b/c", "a/b"] 30 5).cache 10
        ["a/b", "b/c"] 30 7).pipeline_ran = false ∧
    (get_insights_cache (get_insights_cache [] 0 ["b/c", "a/b"] 30 5).cache 700
        ["a/b", "b/c"] 30 7).pipeline_ran = true :=
  ⟨(get_insights_cache_spec [] 0 10 ["b/c", "a/b"] ["a/b", "b/c"] 30 5 7
      (by decide) rfl).1,
   ((get_insights_cache_spec [] 0 10 ["b/c", "a/b"] ["a/b", "b/c"] 30 5 7
      (by decide) rfl).2.1 (by decide)).1,
   ((get_insights_cache_spec [] 0 10 ["b/c", "a/b"] ["a/b", "b/c"] 30 5 7
      (by decide) rfl).2.1 (by decide)).2,
   ((get_insights_cache_spec [] 0 700 ["b/c", "a/b"] ["a/b", "b/c"] 30 5 7
      (by decide) rfl).2.2 (by decide)).1⟩

-- ===================================================================
-- C6: malformed repository identifiers
-- ===================================================================

/-- Splitting never yields the empty list of segments. -/
lemma splitSlashAux_ne_nil (l : List Char) : ∀ acc, splitSlashAux l acc ≠ [] := by
  induction l with
  | nil =>
    intro acc
    simp [splitSlashAux]
  | cons c rest ih =>
    intro acc
    by_cases h : c = '/'
    · simp [splitSlashAux, h]
    · simp only [splitSlashAux, if_neg h]
      exact ih _

/-- A Python split always has at least one part. -/
lemma pySplitSlash_length_pos (s : String) : 0 < (pySplitSlash s).length := by
  rw [pySplitSlash, List.length_map]
  exact List.length_pos.mpr (splitSlashAux_ne_nil _ _)

/-- C6 counterexample: a repository identifier with two slashes passes
the `"/" in repo` guard but makes the two-name unpacking raise
`ValueError`, which propagates out of the request handler — refuting the
claim that no error from a malformed repository identifier reaches the
inbound response. -/
theorem valid_repo_pairs_counterexample :
    valid_repo_pairs ["a/b/c"] = .error () := rfl

/-- C6 amended: a repository identifier without a slash is skipped —
it contributes no owner/name pair and processing of the remaining
entries is unaffected — and every request whose identifiers each contain
at most one slash completes without error; an identifier with two or
more slashes, however, raises an unpacking error that propagates. -/
theorem valid_repo_pairs_spec :
    (∀ (repo : String) (rest : List String), (pySplitSlash repo).length = 1 →
      valid_repo_pairs (repo :: rest) = valid_repo_pairs rest) ∧
    (∀ repos : List String, (∀ r ∈ repos, (pySplitSlash r).length ≤ 2) →
      ∃ l, valid_repo_pairs repos = .ok l) := by
  constructor
  · intro repo rest h
    simp only [valid_repo_pairs, h, if_true]
  · intro repos
    induction repos with
    | nil => exact fun _ => ⟨[], rfl⟩
    | cons r rest ih =>
      intro h
      rcases ih (fun x hx => h x (List.mem_cons_of_mem r hx)) with ⟨l, hl⟩
      have hr := h r (List.mem_cons_self r rest)
      by_cases h1 : (pySplitSlash r).length = 1
      · exact ⟨l, by simp only [valid_repo_pairs, h1, if_true]; exact hl⟩
      · have h2 : (pySplitSlash r).length = 2 := by
          have := pySplitSlash_length_pos r
          omega
        refine ⟨((pySplitSlash r).getD 0 "", (pySplitSlash r).getD 1 "") :: l, ?_⟩
        simp only [valid_repo_pairs, h1, h2, if_false, if_true, hl]
        rfl

/-- C6 witness: a separator-free identifier is skipped with processing
continuing, and a request mixing one valid and one separator-free
identifier completes without error. -/
theorem valid_repo_pairs_spec_witness :
    valid_repo_pairs ["invalidrepo", "x/y"] = valid_repo_pairs ["x/y"] ∧
    (∃ l, valid_repo_pairs ["a/b", "noslash"] = .ok l) :=
  ⟨valid_repo_pairs_spec.1 "invalidrepo" ["x/y"] (by decide),
   valid_repo_pairs_spec.2 ["a/b", "noslash"] (by decide)⟩
